import Mathlib

/-!
BotKube Discord bot: message dispatch and response delivery.

A shallow embedding of `pkg/bot/discord.go`.

* Go strings are byte sequences, so `GoString` is a list of bytes; `len` is `List.length`
  and `==` is equality of the byte lists.
* `discordMessage.HandleMessage` has a pointer receiver and mutates the message, so the
  embedding returns the message after the call together with the ordered list of effects it
  performed (log lines, the executor invocation, platform calls).
* `discordMessage.Send` has a value receiver, so it only returns its effects.
* The executor (`pkg/execute`) and the Discord platform (`discordgo`) are collaborators that
  live outside this file: the executor is a function parameter, the platform is an oracle that
  answers every call with `nil` (`none`) or an error.
* The pointers `Event` and `Session` are never nil when the platform client invokes the
  callback; they are embedded as the values they point to.
-/

namespace Botkube

/-- A Go string: an immutable sequence of bytes. -/
abbrev GoString := List UInt8

/-- The bytes of a Go string literal (Go source text is UTF-8). -/
def str (s : String) : GoString := s.toList.flatMap String.utf8EncodeChar

/-- A Go `error` value that is not nil, identified by its message. -/
abbrev GoError := GoString

namespace strings

/-- Go `strings.HasPrefix`: `len(s) >= len(p) && s[0:len(p)] == p`. -/
def HasPrefix (s p : GoString) : Bool :=
  decide (s.length ≥ p.length) && (s.take p.length == p)

/-- Go `strings.TrimPrefix`: `s[len(p):]` when `s` starts with `p`, else `s`. -/
def TrimPrefix (s p : GoString) : GoString :=
  if HasPrefix s p then s.drop p.length else s

end strings

/-- The fields of `discordgo.MessageCreate` that the bot reads. -/
structure MessageCreate where
  Content : GoString
  ChannelID : GoString
deriving DecidableEq

/-- A `*discordgo.Session`: the connection handle, identified by its address. -/
structure Session where
  addr : Nat
deriving DecidableEq

/-- A `discordgo.File`; `Reader` holds the bytes that `strings.NewReader` will yield. -/
structure File where
  Name : GoString
  ContentType : GoString := []
  Reader : GoString
deriving DecidableEq

/-- A `discordgo.MessageSend`; the fields the bot never sets keep their zero value and are
left out. -/
structure MessageSend where
  Content : GoString
  Files : List File
deriving DecidableEq

/-- Modelled from the spec: the constant `config.DiscordBot` of type `config.BotPlatform`
(package `pkg/config`), the "platform identifier" forwarded to the executor. -/
inductive BotPlatform where
  | DiscordBot
deriving DecidableEq

/-- DiscordBot listens for user's message, execute commands and sends back the response. -/
structure DiscordBot where
  Token : GoString
  AllowKubectl : Bool
  RestrictAccess : Bool
  ClusterName : GoString
  ChannelID : GoString
  BotID : GoString
  DefaultNamespace : GoString
deriving DecidableEq

/-- The message details needed to execute a command and send back the result. -/
structure discordMessage where
  Event : MessageCreate
  BotID : GoString
  Request : GoString := []
  Response : GoString := []
  IsAuthChannel : Bool := false
  Session : Session
deriving DecidableEq

/-- The arguments of `execute.NewDefaultExecutor`, in the order of the call site. -/
structure DefaultExecutor where
  Message : GoString
  AllowKubectl : Bool
  RestrictAccess : Bool
  DefaultNamespace : GoString
  ClusterName : GoString
  Platform : BotPlatform
  ChannelName : GoString
  IsAuthChannel : Bool
deriving DecidableEq

/-- The executor collaborator: `e.Execute()` as a function of how `e` was built. -/
abbrev Executor := DefaultExecutor → GoString

/-- The platform collaborator: the `err` each send returns (`none` is nil). -/
structure Platform where
  ChannelMessageSendComplex : Session → GoString → MessageSend → Option GoError
  ChannelMessageSend : Session → GoString → GoString → Option GoError

/-- Everything the bot does to the outside world, in program order. -/
inductive Effect where
  | Debugf (format : String) (arg : GoString)
  | Info (msg : String)
  | Error (msg : String) (err : GoError)
  | Execute (e : DefaultExecutor)
  | ChannelMessageSendComplex (s : Session) (channelID : GoString) (data : MessageSend)
  | ChannelMessageSend (s : Session) (channelID : GoString) (content : GoString)
deriving DecidableEq

/-- Whether an effect is a call of the Discord API. -/
def Effect.isPlatformCall : Effect → Bool
  | .ChannelMessageSendComplex _ _ _ => true
  | .ChannelMessageSend _ _ _ => true
  | _ => false

/-- Whether an effect is an invocation of the executor. -/
def Effect.isExecute : Effect → Bool
  | .Execute _ => true
  | _ => false

/-- The outbound platform calls of a trace, in order. -/
def platformCalls (t : List Effect) : List Effect := t.filter Effect.isPlatformCall

/-- The executor invocations of a trace, in order. -/
def executorCalls (t : List Effect) : List Effect := t.filter Effect.isExecute

/-- The method `func (dm discordMessage) Send()`. -/
def discordMessage.Send (api : Platform) (dm : discordMessage) : List Effect :=
  [Effect.Debugf "Discord incoming Request: %s" dm.Request,
   Effect.Debugf "Discord Response: %s" dm.Response] ++
  -- Upload message as a file if too long
  if dm.Response.length ≥ 2000 then
    let params : MessageSend :=
      { Content := dm.Request,
        Files := [{ Name := str "Response", Reader := dm.Response }] }
    Effect.ChannelMessageSendComplex dm.Session dm.Event.ChannelID params ::
      (match api.ChannelMessageSendComplex dm.Session dm.Event.ChannelID params with
       | some err => [Effect.Error "Error in uploading file:" err]
       | none => [])
  else if dm.Response.length = 0 then
    [Effect.Info "Invalid request. Dumping the response"]
  else
    Effect.ChannelMessageSend dm.Session dm.Event.ChannelID dm.Response ::
      (match api.ChannelMessageSend dm.Session dm.Event.ChannelID dm.Response with
       | some err => [Effect.Error "Error in sending message:" err]
       | none => [])

/-- The method `func (dm *discordMessage) HandleMessage(b *DiscordBot)`: the message after the
call and the effects performed. -/
def discordMessage.HandleMessage (Execute : Executor) (api : Platform)
    (dm : discordMessage) (b : DiscordBot) : discordMessage × List Effect :=
  -- Serve only if starts with mention
  if !strings.HasPrefix dm.Event.Content (str "<@!" ++ dm.BotID ++ str "> ") &&
      !strings.HasPrefix dm.Event.Content (str "<@" ++ dm.BotID ++ str "> ") then
    (dm, [])
  else
    -- Serve only if current channel is in config
    let dm := if b.ChannelID = dm.Event.ChannelID then { dm with IsAuthChannel := true } else dm
    -- Trim the @BotKube mention
    let dm :=
      if strings.HasPrefix dm.Event.Content (str "<@!" ++ dm.BotID ++ str "> ") then
        { dm with Request := strings.TrimPrefix dm.Event.Content (str "<@!" ++ dm.BotID ++ str "> ") }
      else if strings.HasPrefix dm.Event.Content (str "<@" ++ dm.BotID ++ str "> ") then
        { dm with Request := strings.TrimPrefix dm.Event.Content (str "<@" ++ dm.BotID ++ str "> ") }
      else dm
    if dm.Request.length = 0 then
      (dm, [])
    else
      let e : DefaultExecutor :=
        { Message := dm.Request, AllowKubectl := b.AllowKubectl,
          RestrictAccess := b.RestrictAccess, DefaultNamespace := b.DefaultNamespace,
          ClusterName := b.ClusterName, Platform := BotPlatform.DiscordBot,
          ChannelName := b.ChannelID, IsAuthChannel := dm.IsAuthChannel }
      let dm := { dm with Response := Execute e }
      (dm, Effect.Execute e :: dm.Send api)

/-- The callback that `DiscordBot.Start` registers with `api.AddHandler`: it builds a
`discordMessage` with only `Event`, `BotID` and `Session` set and handles it. -/
def DiscordBot.StartHandler (Execute : Executor) (api : Platform) (b : DiscordBot)
    (s : Session) (m : MessageCreate) : discordMessage × List Effect :=
  let dm : discordMessage := { Event := m, BotID := b.BotID, Session := s }
  dm.HandleMessage Execute api b

/-! ## Example collaborators and messages -/

/-- An executor stub that answers every command with `pod-a  Running`. -/
def stubExecutor : Executor := fun _ => str "pod-a  Running"

/-- A platform on which every send succeeds. -/
def okPlatform : Platform :=
  { ChannelMessageSendComplex := fun _ _ _ => none, ChannelMessageSend := fun _ _ _ => none }

/-- A platform on which every send fails. -/
def downPlatform : Platform :=
  { ChannelMessageSendComplex := fun _ _ _ => some (str "HTTP 500"),
    ChannelMessageSend := fun _ _ _ => some (str "HTTP 500") }

/-- A bot configured with id `BOT123` on channel `C1`. -/
def bot123 : DiscordBot :=
  { Token := str "t", AllowKubectl := true, RestrictAccess := false, ClusterName := str "k",
    ChannelID := str "C1", BotID := str "BOT123", DefaultNamespace := str "default" }

/-! ## The shape of a dispatch -/

/-- The executor that `HandleMessage` builds for command `c` and authorization flag `auth`. -/
def executorFor (b : DiscordBot) (c : GoString) (auth : Bool) : DefaultExecutor :=
  { Message := c, AllowKubectl := b.AllowKubectl, RestrictAccess := b.RestrictAccess,
    DefaultNamespace := b.DefaultNamespace, ClusterName := b.ClusterName,
    Platform := BotPlatform.DiscordBot, ChannelName := b.ChannelID, IsAuthChannel := auth }

/-- The authorization flag after the channel check of `HandleMessage`. -/
def authAfterCheck (dm : discordMessage) (b : DiscordBot) : Bool :=
  dm.IsAuthChannel || decide (b.ChannelID = dm.Event.ChannelID)

/-- What `HandleMessage` does once a mention has been recognised and stripped to `c`. -/
def dispatched (Execute : Executor) (api : Platform) (dm : discordMessage) (b : DiscordBot)
    (c : GoString) : discordMessage × List Effect :=
  let dm1 := { dm with IsAuthChannel := authAfterCheck dm b, Request := c }
  if c = [] then (dm1, [])
  else
    let dm2 := { dm1 with Response := Execute (executorFor b c (authAfterCheck dm b)) }
    (dm2, Effect.Execute (executorFor b c (authAfterCheck dm b)) :: dm2.Send api)

/-- The platform calls `Send` issues for request `q` and response `r` on session `s`, channel
`ch`: the right-hand side of `platformCalls_Send`. -/
def routed (s : Session) (ch q r : GoString) : List Effect :=
  if r.length ≥ 2000 then
    [Effect.ChannelMessageSendComplex s ch
      { Content := q, Files := [{ Name := str "Response", Reader := r }] }]
  else if r.length = 0 then []
  else [Effect.ChannelMessageSend s ch r]

/-- A message built the way the `Start` callback builds it. -/
def freshMessage (id content channel : GoString) : discordMessage :=
  { Event := { Content := content, ChannelID := channel }, BotID := id, Session := ⟨1⟩ }

/-- A message holding a 2500-byte response, as the sender would receive it. -/
def longReply : discordMessage :=
  { Event := { Content := str "<@!BOT123> get pods", ChannelID := str "C2" },
    BotID := str "BOT123", Request := str "get pods", Response := List.replicate 2500 120,
    IsAuthChannel := false, Session := ⟨1⟩ }

/-- A message holding a short response. -/
def shortReply : discordMessage :=
  { Event := { Content := str "<@!BOT123> get pods", ChannelID := str "C2" },
    BotID := str "BOT123", Request := str "get pods", Response := str "pod-a  Running",
    IsAuthChannel := false, Session := ⟨1⟩ }

/-- A message holding an empty response. -/
def emptyReply : discordMessage :=
  { Event := { Content := str "<@!BOT123> get pods", ChannelID := str "C2" },
    BotID := str "BOT123", Request := str "get pods", Response := [],
    IsAuthChannel := false, Session := ⟨1⟩ }

/-! ## Characters, test order and a flag set on entry -/

/-- The Go string that holds the text `cs`: the UTF-8 encoding of its code points, so that
`cs.length` is the number of characters and `(utf8 cs).length` is what `len` measures. -/
def utf8 (cs : List Char) : GoString := cs.flatMap String.utf8EncodeChar

/-- The text made of one thousand times the two-byte character U+00E9. -/
def accentedText : List Char := List.replicate 1000 (Char.ofNat 233)

/-- A message holding `accentedText` as its response. -/
def accentedReply : discordMessage :=
  { Event := { Content := str "<@!BOT123> get pods", ChannelID := str "C2" },
    BotID := str "BOT123", Request := str "get pods", Response := utf8 accentedText,
    IsAuthChannel := false, Session := ⟨1⟩ }

/-- A message addressed to `BOT123` on channel `C2` whose `IsAuthChannel` is already true on
entry. -/
def flaggedMessage : discordMessage :=
  { Event := { Content := str "<@!BOT123> get pods", ChannelID := str "C2" },
    BotID := str "BOT123", Request := [], Response := [],
    IsAuthChannel := true, Session := ⟨1⟩ }

/-- The method `HandleMessage` with the two tests of its trimming step (lines 111 to 115)
exchanged: the plain form is tried first. Everything else is as in `HandleMessage`; it is
compared with `HandleMessage` to show that the order of the tests is immaterial. -/
def discordMessage.HandleMessagePlainFirst (Execute : Executor) (api : Platform)
    (dm : discordMessage) (b : DiscordBot) : discordMessage × List Effect :=
  if !strings.HasPrefix dm.Event.Content (str "<@!" ++ dm.BotID ++ str "> ") &&
      !strings.HasPrefix dm.Event.Content (str "<@" ++ dm.BotID ++ str "> ") then
    (dm, [])
  else
    let dm := if b.ChannelID = dm.Event.ChannelID then { dm with IsAuthChannel := true } else dm
    let dm :=
      if strings.HasPrefix dm.Event.Content (str "<@" ++ dm.BotID ++ str "> ") then
        { dm with Request := strings.TrimPrefix dm.Event.Content (str "<@" ++ dm.BotID ++ str "> ") }
      else if strings.HasPrefix dm.Event.Content (str "<@!" ++ dm.BotID ++ str "> ") then
        { dm with Request := strings.TrimPrefix dm.Event.Content (str "<@!" ++ dm.BotID ++ str "> ") }
      else dm
    if dm.Request.length = 0 then
      (dm, [])
    else
      let e : DefaultExecutor :=
        { Message := dm.Request, AllowKubectl := b.AllowKubectl,
          RestrictAccess := b.RestrictAccess, DefaultNamespace := b.DefaultNamespace,
          ClusterName := b.ClusterName, Platform := BotPlatform.DiscordBot,
          ChannelName := b.ChannelID, IsAuthChannel := dm.IsAuthChannel }
      let dm := { dm with Response := Execute e }
      (dm, Effect.Execute e :: dm.Send api)

/-! ## Literals -/

theorem str_nick : str "<@!" = [60, 64, 33] := by decide
theorem str_plain : str "<@" = [60, 64] := by decide
theorem str_close : str "> " = [62, 32] := by decide

/-! ## Facts about the string helpers -/

theorem HasPrefix_iff (s p : GoString) : strings.HasPrefix s p = true ↔ p <+: s := by
  unfold strings.HasPrefix
  rw [List.prefix_iff_eq_take]
  constructor
  · intro h
    simp only [Bool.and_eq_true, decide_eq_true_eq, beq_iff_eq] at h
    exact h.2.symm
  · intro h
    have hl : p.length ≤ s.length := by
      have := congrArg List.length h
      simp only [List.length_take] at this
      omega
    simp only [Bool.and_eq_true, decide_eq_true_eq, beq_iff_eq]
    exact ⟨hl, h.symm⟩

theorem HasPrefix_false_iff (s p : GoString) : strings.HasPrefix s p = false ↔ ¬ p <+: s := by
  rw [← HasPrefix_iff, Bool.not_eq_true]

theorem HasPrefix_append (p t : GoString) : strings.HasPrefix (p ++ t) p = true :=
  (HasPrefix_iff _ _).2 (List.prefix_append p t)

theorem TrimPrefix_append (p t : GoString) : strings.TrimPrefix (p ++ t) p = t := by
  unfold strings.TrimPrefix
  rw [HasPrefix_append, if_pos rfl, List.drop_left]

/-- The byte `!` followed by `id ++ "> " ++ t` is never `id ++ "> " ++ u`: walking along `id`
forces every byte of it to be `!`, and then `>` would have to be `!`. -/
theorem bang_shift_ne (id t u : GoString) :
    (33 : UInt8) :: (id ++ ([62, 32] ++ t)) ≠ id ++ ([62, 32] ++ u) := by
  induction id generalizing t u with
  | nil =>
    intro h
    simp only [List.nil_append, List.cons_append, List.cons.injEq] at h
    exact absurd h.1 (by decide)
  | cons a r ih =>
    intro h
    simp only [List.cons_append, List.cons.injEq] at h
    obtain ⟨ha, hr⟩ := h
    subst ha
    exact ih t u hr

/-- No content starts with both mention forms of the same bot id. -/
theorem mention_forms_exclusive (id s : GoString)
    (hn : (str "<@!" ++ id ++ str "> ") <+: s) (hp : (str "<@" ++ id ++ str "> ") <+: s) :
    False := by
  obtain ⟨t, ht⟩ := hn
  obtain ⟨u, hu⟩ := hp
  rw [str_nick, str_close] at ht
  rw [str_plain, str_close] at hu
  have h := ht.trans hu.symm
  simp only [List.cons_append, List.nil_append, List.append_assoc, List.cons.injEq,
    true_and] at h
  exact bang_shift_ne id t u h

/-- Content in the plain form does not start with the nickname form. -/
theorem plain_not_nick (id c : GoString) :
    strings.HasPrefix (str "<@" ++ id ++ str "> " ++ c) (str "<@!" ++ id ++ str "> ") = false := by
  rw [HasPrefix_false_iff]
  intro hn
  exact mention_forms_exclusive id _ hn (List.prefix_append _ c)

/-! ## Dispatch lemmas -/

theorem HandleMessage_nick (Execute : Executor) (api : Platform) (dm : discordMessage)
    (b : DiscordBot) (c : GoString)
    (h : dm.Event.Content = str "<@!" ++ dm.BotID ++ str "> " ++ c) :
    dm.HandleMessage Execute api b = dispatched Execute api dm b c := by
  have hN : strings.HasPrefix dm.Event.Content (str "<@!" ++ dm.BotID ++ str "> ") = true := by
    rw [h]; exact HasPrefix_append _ _
  have hT : strings.TrimPrefix dm.Event.Content (str "<@!" ++ dm.BotID ++ str "> ") = c := by
    rw [h]; exact TrimPrefix_append _ _
  unfold discordMessage.HandleMessage dispatched authAfterCheck executorFor
  simp only [List.append_assoc] at hN hT ⊢
  by_cases hch : b.ChannelID = dm.Event.ChannelID <;> by_cases hc : c = [] <;>
    simp [hch, hc, hN, hT]

theorem HandleMessage_plain (Execute : Executor) (api : Platform) (dm : discordMessage)
    (b : DiscordBot) (c : GoString)
    (h : dm.Event.Content = str "<@" ++ dm.BotID ++ str "> " ++ c) :
    dm.HandleMessage Execute api b = dispatched Execute api dm b c := by
  have hN : strings.HasPrefix dm.Event.Content (str "<@!" ++ dm.BotID ++ str "> ") = false := by
    rw [h]; exact plain_not_nick _ _
  have hP : strings.HasPrefix dm.Event.Content (str "<@" ++ dm.BotID ++ str "> ") = true := by
    rw [h]; exact HasPrefix_append _ _
  have hT : strings.TrimPrefix dm.Event.Content (str "<@" ++ dm.BotID ++ str "> ") = c := by
    rw [h]; exact TrimPrefix_append _ _
  unfold discordMessage.HandleMessage dispatched authAfterCheck executorFor
  simp only [List.append_assoc] at hN hP hT ⊢
  by_cases hch : b.ChannelID = dm.Event.ChannelID <;> by_cases hc : c = [] <;>
    simp [hch, hc, hN, hP, hT]

theorem HandleMessage_unaddressed (Execute : Executor) (api : Platform) (dm : discordMessage)
    (b : DiscordBot)
    (hn : strings.HasPrefix dm.Event.Content (str "<@!" ++ dm.BotID ++ str "> ") = false)
    (hp : strings.HasPrefix dm.Event.Content (str "<@" ++ dm.BotID ++ str "> ") = false) :
    dm.HandleMessage Execute api b = (dm, []) := by
  unfold discordMessage.HandleMessage
  simp only [hn, hp]
  simp

/-- Every content is either unaddressed or one of the two mention forms followed by a command. -/
theorem HandleMessage_cases (Execute : Executor) (api : Platform) (dm : discordMessage)
    (b : DiscordBot) :
    dm.HandleMessage Execute api b = (dm, []) ∨
      ∃ c, dm.HandleMessage Execute api b = dispatched Execute api dm b c := by
  by_cases hn : strings.HasPrefix dm.Event.Content (str "<@!" ++ dm.BotID ++ str "> ") = true
  · obtain ⟨c, hc⟩ := (HasPrefix_iff _ _).1 hn
    exact Or.inr ⟨c, HandleMessage_nick Execute api dm b c hc.symm⟩
  · by_cases hp : strings.HasPrefix dm.Event.Content (str "<@" ++ dm.BotID ++ str "> ") = true
    · obtain ⟨c, hc⟩ := (HasPrefix_iff _ _).1 hp
      exact Or.inr ⟨c, HandleMessage_plain Execute api dm b c hc.symm⟩
    · exact Or.inl (HandleMessage_unaddressed Execute api dm b
        (Bool.not_eq_true _ ▸ hn) (Bool.not_eq_true _ ▸ hp))

/-- The effects of `Send` depend on the event only through its channel id. -/
theorem Send_congr (api : Platform) (dm dm2 : discordMessage)
    (hq : dm.Request = dm2.Request) (hr : dm.Response = dm2.Response)
    (hs : dm.Session = dm2.Session) (hc : dm.Event.ChannelID = dm2.Event.ChannelID) :
    dm.Send api = dm2.Send api := by
  unfold discordMessage.Send
  rw [hq, hr, hs, hc]

/-- The platform calls of `Send`, by the length of the response. -/
theorem platformCalls_Send (api : Platform) (dm : discordMessage) :
    platformCalls (dm.Send api) =
      if dm.Response.length ≥ 2000 then
        [Effect.ChannelMessageSendComplex dm.Session dm.Event.ChannelID
          { Content := dm.Request, Files := [{ Name := str "Response", Reader := dm.Response }] }]
      else if dm.Response.length = 0 then []
      else [Effect.ChannelMessageSend dm.Session dm.Event.ChannelID dm.Response] := by
  unfold discordMessage.Send platformCalls
  split
  · dsimp only
    split <;> simp [List.filter, Effect.isPlatformCall]
  · split
    · simp [List.filter, Effect.isPlatformCall]
    · split <;> simp [List.filter, Effect.isPlatformCall]

/-- `Send` never invokes the executor. -/
theorem executorCalls_Send (api : Platform) (dm : discordMessage) :
    executorCalls (dm.Send api) = [] := by
  unfold discordMessage.Send executorCalls
  split
  · dsimp only
    split <;> simp [List.filter, Effect.isExecute]
  · split
    · simp [List.filter, Effect.isExecute]
    · split <;> simp [List.filter, Effect.isExecute]

theorem platformCalls_Send_routed (api : Platform) (dm : discordMessage) :
    platformCalls (dm.Send api) = routed dm.Session dm.Event.ChannelID dm.Request dm.Response :=
  platformCalls_Send api dm

theorem routed_length_le (s : Session) (ch q r : GoString) : (routed s ch q r).length ≤ 1 := by
  unfold routed
  split
  · simp
  · split <;> simp

theorem HandleMessage_addressed (Execute : Executor) (api : Platform) (dm : discordMessage)
    (b : DiscordBot) (c : GoString)
    (h : dm.Event.Content = str "<@!" ++ dm.BotID ++ str "> " ++ c ∨
      dm.Event.Content = str "<@" ++ dm.BotID ++ str "> " ++ c) :
    dm.HandleMessage Execute api b = dispatched Execute api dm b c :=
  h.elim (HandleMessage_nick Execute api dm b c) (HandleMessage_plain Execute api dm b c)

/-- Every content is unaddressed or is one of the two mention forms followed by a command. -/
theorem content_cases (id s : GoString) :
    (strings.HasPrefix s (str "<@!" ++ id ++ str "> ") = false ∧
      strings.HasPrefix s (str "<@" ++ id ++ str "> ") = false) ∨
    ∃ c, s = str "<@!" ++ id ++ str "> " ++ c ∨ s = str "<@" ++ id ++ str "> " ++ c := by
  by_cases hn : strings.HasPrefix s (str "<@!" ++ id ++ str "> ") = true
  · obtain ⟨c, hc⟩ := (HasPrefix_iff _ _).1 hn
    exact Or.inr ⟨c, Or.inl hc.symm⟩
  · by_cases hp : strings.HasPrefix s (str "<@" ++ id ++ str "> ") = true
    · obtain ⟨c, hc⟩ := (HasPrefix_iff _ _).1 hp
      exact Or.inr ⟨c, Or.inr hc.symm⟩
    · exact Or.inl ⟨Bool.not_eq_true _ ▸ hn, Bool.not_eq_true _ ▸ hp⟩

theorem dispatched_empty (Execute : Executor) (api : Platform) (dm : discordMessage)
    (b : DiscordBot) :
    dispatched Execute api dm b [] =
      ({ dm with IsAuthChannel := authAfterCheck dm b, Request := [] }, []) := by
  simp [dispatched]

theorem dispatched_command (Execute : Executor) (api : Platform) (dm : discordMessage)
    (b : DiscordBot) (c : GoString) (hc : c ≠ []) :
    dispatched Execute api dm b c =
      ({ dm with IsAuthChannel := authAfterCheck dm b, Request := c,
                 Response := Execute (executorFor b c (authAfterCheck dm b)) },
       Effect.Execute (executorFor b c (authAfterCheck dm b)) ::
         discordMessage.Send api
           { dm with IsAuthChannel := authAfterCheck dm b, Request := c,
                     Response := Execute (executorFor b c (authAfterCheck dm b)) }) := by
  simp [dispatched, hc]

theorem platformCalls_cons_Execute (e : DefaultExecutor) (t : List Effect) :
    platformCalls (Effect.Execute e :: t) = platformCalls t := by
  simp [platformCalls, List.filter, Effect.isPlatformCall]

theorem executorCalls_cons_Execute (e : DefaultExecutor) (t : List Effect) :
    executorCalls (Effect.Execute e :: t) = Effect.Execute e :: executorCalls t := by
  simp [executorCalls, List.filter, Effect.isExecute]

theorem platformCalls_dispatched (Execute : Executor) (api : Platform) (dm : discordMessage)
    (b : DiscordBot) (c : GoString) :
    platformCalls (dispatched Execute api dm b c).2 =
      if c = [] then []
      else routed dm.Session dm.Event.ChannelID c
        (Execute (executorFor b c (authAfterCheck dm b))) := by
  by_cases hc : c = []
  · subst hc
    rw [dispatched_empty]
    simp [platformCalls]
  · rw [dispatched_command Execute api dm b c hc, if_neg hc]
    simp only [platformCalls_cons_Execute, platformCalls_Send_routed]

theorem executorCalls_dispatched (Execute : Executor) (api : Platform) (dm : discordMessage)
    (b : DiscordBot) (c : GoString) :
    executorCalls (dispatched Execute api dm b c).2 =
      if c = [] then [] else [Effect.Execute (executorFor b c (authAfterCheck dm b))] := by
  by_cases hc : c = []
  · subst hc
    rw [dispatched_empty]
    simp [executorCalls]
  · rw [dispatched_command Execute api dm b c hc, if_neg hc]
    simp only [executorCalls_cons_Execute, executorCalls_Send]

theorem authAfterCheck_dispatched (Execute : Executor) (api : Platform) (dm : discordMessage)
    (b : DiscordBot) (c : GoString) :
    authAfterCheck (dispatched Execute api dm b c).1 b = authAfterCheck dm b := by
  by_cases hc : c = []
  · subst hc
    rw [dispatched_empty]
    simp [authAfterCheck]
  · rw [dispatched_command Execute api dm b c hc]
    simp [authAfterCheck]

/-- A dispatch changes neither the event, the bot id nor the session of the message. -/
theorem dispatched_frame (Execute : Executor) (api : Platform) (dm : discordMessage)
    (b : DiscordBot) (c : GoString) :
    (dispatched Execute api dm b c).1.Event = dm.Event ∧
    (dispatched Execute api dm b c).1.BotID = dm.BotID ∧
    (dispatched Execute api dm b c).1.Session = dm.Session := by
  by_cases hc : c = []
  · subst hc
    rw [dispatched_empty]
    exact ⟨rfl, rfl, rfl⟩
  · rw [dispatched_command Execute api dm b c hc]
    exact ⟨rfl, rfl, rfl⟩

/-- Dispatching the same command again on the message a dispatch left behind changes nothing
and repeats the same effects. -/
theorem dispatched_again (Execute : Executor) (api : Platform) (dm : discordMessage)
    (b : DiscordBot) (c : GoString) :
    dispatched Execute api (dispatched Execute api dm b c).1 b c = dispatched Execute api dm b c := by
  by_cases hc : c = []
  · subst hc
    simp [dispatched_empty, authAfterCheck]
  · simp [dispatched_command _ _ _ _ _ hc, authAfterCheck]

theorem longReply_length : longReply.Response.length ≥ 2000 := by
  show (List.replicate 2500 (120 : UInt8)).length ≥ 2000
  rw [List.length_replicate]
  decide

/-! ## Addressing -/

/-- C1: when the content starts with neither `<@!` + BotID + `> ` nor `<@` + BotID + `> `
(byte-exact, hence case-sensitive), `HandleMessage` leaves the message untouched and performs
no effect at all: the executor is not invoked and no platform call is issued. -/
theorem C1_unaddressed_message_is_ignored (Execute : Executor) (api : Platform)
    (dm : discordMessage) (b : DiscordBot)
    (hn : ¬ (str "<@!" ++ dm.BotID ++ str "> ") <+: dm.Event.Content)
    (hp : ¬ (str "<@" ++ dm.BotID ++ str "> ") <+: dm.Event.Content) :
    dm.HandleMessage Execute api b = (dm, []) ∧
    executorCalls (dm.HandleMessage Execute api b).2 = [] ∧
    platformCalls (dm.HandleMessage Execute api b).2 = [] := by
  have h := HandleMessage_unaddressed Execute api dm b
    ((HasPrefix_false_iff _ _).2 hn) ((HasPrefix_false_iff _ _).2 hp)
  rw [h]
  exact ⟨rfl, rfl, rfl⟩

/-- C1 at a concrete input: the mention of `bot123` in lower case does not address `BOT123`. -/
theorem C1_unaddressed_message_is_ignored_witness :
    (freshMessage (str "BOT123") (str "<@!bot123> get pods") (str "C1")).HandleMessage
        stubExecutor okPlatform bot123 =
      (freshMessage (str "BOT123") (str "<@!bot123> get pods") (str "C1"), []) ∧
    executorCalls ((freshMessage (str "BOT123") (str "<@!bot123> get pods")
        (str "C1")).HandleMessage stubExecutor okPlatform bot123).2 = [] ∧
    platformCalls ((freshMessage (str "BOT123") (str "<@!bot123> get pods")
        (str "C1")).HandleMessage stubExecutor okPlatform bot123).2 = [] :=
  C1_unaddressed_message_is_ignored stubExecutor okPlatform
    (freshMessage (str "BOT123") (str "<@!bot123> get pods") (str "C1")) bot123
    (by decide) (by decide)

/-- C2: for every bot id and every non-empty command `c`, handling the plain form
`<@` + BotID + `> ` + c performs exactly the effects of handling the nickname form
`<@!` + BotID + `> ` + c: the executor is invoked once, with message exactly `c` (no trimming),
then `Send` runs with request `c` and the executor's answer, so the outbound calls coincide;
both calls store request `c`, the same response and the same authorization flag. -/
theorem C2_plain_form_behaves_as_nickname_form (Execute : Executor) (api : Platform)
    (dm : discordMessage) (b : DiscordBot) (c : GoString) (hc : c ≠ []) :
    (({ dm with Event := { dm.Event with Content := str "<@" ++ dm.BotID ++ str "> " ++ c } }
        : discordMessage).HandleMessage Execute api b).2 =
      (({ dm with Event := { dm.Event with Content := str "<@!" ++ dm.BotID ++ str "> " ++ c } }
        : discordMessage).HandleMessage Execute api b).2 ∧
    (({ dm with Event := { dm.Event with Content := str "<@!" ++ dm.BotID ++ str "> " ++ c } }
        : discordMessage).HandleMessage Execute api b).2 =
      Effect.Execute (executorFor b c (authAfterCheck dm b)) ::
        discordMessage.Send api
          { dm with IsAuthChannel := authAfterCheck dm b, Request := c,
                    Response := Execute (executorFor b c (authAfterCheck dm b)) } ∧
    (executorFor b c (authAfterCheck dm b)).Message = c ∧
    (({ dm with Event := { dm.Event with Content := str "<@" ++ dm.BotID ++ str "> " ++ c } }
        : discordMessage).HandleMessage Execute api b).1 =
      { dm with Event := { dm.Event with Content := str "<@" ++ dm.BotID ++ str "> " ++ c },
                IsAuthChannel := authAfterCheck dm b, Request := c,
                Response := Execute (executorFor b c (authAfterCheck dm b)) } ∧
    (({ dm with Event := { dm.Event with Content := str "<@!" ++ dm.BotID ++ str "> " ++ c } }
        : discordMessage).HandleMessage Execute api b).1 =
      { dm with Event := { dm.Event with Content := str "<@!" ++ dm.BotID ++ str "> " ++ c },
                IsAuthChannel := authAfterCheck dm b, Request := c,
                Response := Execute (executorFor b c (authAfterCheck dm b)) } := by
  have hP := HandleMessage_plain Execute api
    { dm with Event := { dm.Event with Content := str "<@" ++ dm.BotID ++ str "> " ++ c } }
    b c rfl
  have hN := HandleMessage_nick Execute api
    { dm with Event := { dm.Event with Content := str "<@!" ++ dm.BotID ++ str "> " ++ c } }
    b c rfl
  rw [hP, hN, dispatched_command _ _ _ _ _ hc, dispatched_command _ _ _ _ _ hc]
  refine ⟨?_, ?_, rfl, rfl, rfl⟩
  · exact congrArg (List.cons _) (Send_congr api _ _ rfl rfl rfl rfl)
  · exact congrArg (List.cons _) (Send_congr api _ _ rfl rfl rfl rfl)

/-- C2 at a concrete input: `get pods` addressed to `BOT123` in both forms. -/
theorem C2_plain_form_behaves_as_nickname_form_witness :
    ((freshMessage (str "BOT123") (str "<@BOT123> get pods") (str "C2")).HandleMessage
        stubExecutor okPlatform bot123).2 =
      ((freshMessage (str "BOT123") (str "<@!BOT123> get pods") (str "C2")).HandleMessage
        stubExecutor okPlatform bot123).2 :=
  (C2_plain_form_behaves_as_nickname_form stubExecutor okPlatform
    (freshMessage (str "BOT123") [] (str "C2")) bot123 (str "get pods") (by decide)).1

/-- C3: when the content is exactly a recognised mention and nothing else, the extracted
request is empty, the executor is not invoked and no platform call is issued: the call has no
effect at all. -/
theorem C3_bare_mention_is_ignored (Execute : Executor) (api : Platform)
    (dm : discordMessage) (b : DiscordBot)
    (h : dm.Event.Content = str "<@!" ++ dm.BotID ++ str "> " ∨
      dm.Event.Content = str "<@" ++ dm.BotID ++ str "> ") :
    (dm.HandleMessage Execute api b).1.Request = [] ∧
    (dm.HandleMessage Execute api b).2 = [] ∧
    executorCalls (dm.HandleMessage Execute api b).2 = [] ∧
    platformCalls (dm.HandleMessage Execute api b).2 = [] := by
  have h2 : dm.Event.Content = str "<@!" ++ dm.BotID ++ str "> " ++ [] ∨
      dm.Event.Content = str "<@" ++ dm.BotID ++ str "> " ++ [] := by
    simpa only [List.append_nil] using h
  rw [HandleMessage_addressed Execute api dm b [] h2, dispatched_empty]
  exact ⟨rfl, rfl, rfl, rfl⟩

/-- C3 at a concrete input: the content `<@!BOT123> ` addressed to `BOT123`. -/
theorem C3_bare_mention_is_ignored_witness :
    ((freshMessage (str "BOT123") (str "<@!BOT123> ") (str "C1")).HandleMessage
        stubExecutor okPlatform bot123).1.Request = [] ∧
    ((freshMessage (str "BOT123") (str "<@!BOT123> ") (str "C1")).HandleMessage
        stubExecutor okPlatform bot123).2 = [] ∧
    executorCalls ((freshMessage (str "BOT123") (str "<@!BOT123> ") (str "C1")).HandleMessage
        stubExecutor okPlatform bot123).2 = [] ∧
    platformCalls ((freshMessage (str "BOT123") (str "<@!BOT123> ") (str "C1")).HandleMessage
        stubExecutor okPlatform bot123).2 = [] :=
  C3_bare_mention_is_ignored stubExecutor okPlatform
    (freshMessage (str "BOT123") (str "<@!BOT123> ") (str "C1")) bot123 (Or.inl (by decide))

/-! ## Response routing -/

/-- C4: when `len(dm.Response) >= 2000`, the platform calls of `Send` are exactly one
`ChannelMessageSendComplex` to `Event.ChannelID` whose content is `dm.Request` and whose only
file is named `Response` and holds `dm.Response`; there is no `ChannelMessageSend`. -/
theorem C4_long_response_is_uploaded (api : Platform) (dm : discordMessage)
    (h : dm.Response.length ≥ 2000) :
    platformCalls (dm.Send api) =
      [Effect.ChannelMessageSendComplex dm.Session dm.Event.ChannelID
        { Content := dm.Request,
          Files := [{ Name := str "Response", Reader := dm.Response }] }] := by
  rw [platformCalls_Send, if_pos h]

/-- C4 at a concrete input: a response of 2500 bytes, on a platform that fails every call. -/
theorem C4_long_response_is_uploaded_witness :
    longReply.Response.length ≥ 2000 ∧
    platformCalls (longReply.Send downPlatform) =
      [Effect.ChannelMessageSendComplex longReply.Session longReply.Event.ChannelID
        { Content := longReply.Request,
          Files := [{ Name := str "Response", Reader := longReply.Response }] }] :=
  ⟨longReply_length, C4_long_response_is_uploaded downPlatform longReply longReply_length⟩

/-- C5: when `len(dm.Response)` is between 1 and 1999, the platform calls of `Send` are exactly
one `ChannelMessageSend` to `Event.ChannelID` with text `dm.Response`; there is no upload. -/
theorem C5_short_response_is_sent_inline (api : Platform) (dm : discordMessage)
    (h1 : 1 ≤ dm.Response.length) (h2 : dm.Response.length ≤ 1999) :
    platformCalls (dm.Send api) =
      [Effect.ChannelMessageSend dm.Session dm.Event.ChannelID dm.Response] := by
  rw [platformCalls_Send, if_neg (by omega), if_neg (by omega)]

/-- C5 at a concrete input: the response `pod-a  Running`. -/
theorem C5_short_response_is_sent_inline_witness :
    platformCalls (shortReply.Send okPlatform) =
      [Effect.ChannelMessageSend ⟨1⟩ (str "C2") (str "pod-a  Running")] :=
  C5_short_response_is_sent_inline okPlatform shortReply (by decide) (by decide)

/-- C6: when `dm.Response` is empty, `Send` only logs: it issues no platform call. -/
theorem C6_empty_response_is_dropped (api : Platform) (dm : discordMessage)
    (h : dm.Response = []) :
    dm.Send api =
      [Effect.Debugf "Discord incoming Request: %s" dm.Request,
       Effect.Debugf "Discord Response: %s" [],
       Effect.Info "Invalid request. Dumping the response"] ∧
    platformCalls (dm.Send api) = [] := by
  constructor
  · unfold discordMessage.Send
    simp [h]
  · rw [platformCalls_Send, h]
    rfl

/-- C6 at a concrete input: an empty response to `get pods`. -/
theorem C6_empty_response_is_dropped_witness :
    platformCalls (emptyReply.Send okPlatform) = [] :=
  (C6_empty_response_is_dropped okPlatform emptyReply rfl).2

/-! ## Authorization flag, dispatch, failures and repetition -/

theorem mem_executorCalls (x : Effect) (t : List Effect) :
    x ∈ executorCalls t ↔ x ∈ t ∧ x.isExecute = true := by
  unfold executorCalls
  exact List.mem_filter

/-- The platform's answers influence neither the message `HandleMessage` leaves behind nor the
executor invocations nor the platform calls it issues. -/
theorem HandleMessage_platform_irrelevant (Execute : Executor) (api api2 : Platform)
    (dm : discordMessage) (b : DiscordBot) :
    (dm.HandleMessage Execute api2 b).1 = (dm.HandleMessage Execute api b).1 ∧
    executorCalls (dm.HandleMessage Execute api2 b).2 =
      executorCalls (dm.HandleMessage Execute api b).2 ∧
    platformCalls (dm.HandleMessage Execute api2 b).2 =
      platformCalls (dm.HandleMessage Execute api b).2 := by
  rcases content_cases dm.BotID dm.Event.Content with ⟨hn, hp⟩ | ⟨c, hc⟩
  · rw [HandleMessage_unaddressed Execute api dm b hn hp,
      HandleMessage_unaddressed Execute api2 dm b hn hp]
    exact ⟨rfl, rfl, rfl⟩
  · rw [HandleMessage_addressed Execute api dm b c hc,
      HandleMessage_addressed Execute api2 dm b c hc]
    refine ⟨?_, ?_, ?_⟩
    · by_cases h0 : c = []
      · subst h0
        rw [dispatched_empty, dispatched_empty]
      · rw [dispatched_command _ _ _ _ _ h0, dispatched_command _ _ _ _ _ h0]
    · rw [executorCalls_dispatched, executorCalls_dispatched]
    · rw [platformCalls_dispatched, platformCalls_dispatched]

theorem platformCalls_HandleMessage_length (Execute : Executor) (api : Platform)
    (dm : discordMessage) (b : DiscordBot) :
    (platformCalls (dm.HandleMessage Execute api b).2).length ≤ 1 := by
  rcases content_cases dm.BotID dm.Event.Content with ⟨hn, hp⟩ | ⟨c, hc⟩
  · rw [HandleMessage_unaddressed Execute api dm b hn hp]
    simp [platformCalls]
  · rw [HandleMessage_addressed Execute api dm b c hc, platformCalls_dispatched]
    split
    · simp
    · exact routed_length_le _ _ _ _

/-- Handling again the message that a first call left behind returns the same message and
performs the same effects. -/
theorem HandleMessage_again (Execute : Executor) (api : Platform) (dm : discordMessage)
    (b : DiscordBot) :
    (dm.HandleMessage Execute api b).1.HandleMessage Execute api b =
      dm.HandleMessage Execute api b := by
  rcases content_cases dm.BotID dm.Event.Content with ⟨hn, hp⟩ | ⟨c, hc⟩
  · rw [HandleMessage_unaddressed Execute api dm b hn hp]
    exact HandleMessage_unaddressed Execute api dm b hn hp
  · rw [HandleMessage_addressed Execute api dm b c hc]
    obtain ⟨hE, hB, _⟩ := dispatched_frame Execute api dm b c
    rw [HandleMessage_addressed Execute api _ b c (by rw [hE, hB]; exact hc)]
    exact dispatched_again Execute api dm b c

/-- C7: for an event delivered through the callback registered in `Start` whose content starts
with a recognised mention, the `IsAuthChannel` flag after the channel check is true iff the
event's channel is the configured channel, and so is the flag of every executor built. -/
theorem C7_flag_iff_configured_channel (Execute : Executor) (api : Platform) (b : DiscordBot)
    (s : Session) (m : MessageCreate)
    (h : (str "<@!" ++ b.BotID ++ str "> ") <+: m.Content ∨
      (str "<@" ++ b.BotID ++ str "> ") <+: m.Content) :
    ((b.StartHandler Execute api s m).1.IsAuthChannel = true ↔ m.ChannelID = b.ChannelID) ∧
    ∀ e, Effect.Execute e ∈ (b.StartHandler Execute api s m).2 →
      (e.IsAuthChannel = true ↔ m.ChannelID = b.ChannelID) := by
  have hc : ∃ c, m.Content = str "<@!" ++ b.BotID ++ str "> " ++ c ∨
      m.Content = str "<@" ++ b.BotID ++ str "> " ++ c := by
    rcases h with ⟨c, hc⟩ | ⟨c, hc⟩
    · exact ⟨c, Or.inl hc.symm⟩
    · exact ⟨c, Or.inr hc.symm⟩
  obtain ⟨c, hc⟩ := hc
  have hflag : authAfterCheck { Event := m, BotID := b.BotID, Session := s } b = true ↔
      m.ChannelID = b.ChannelID := by
    simp [authAfterCheck, eq_comm]
  unfold DiscordBot.StartHandler
  rw [HandleMessage_addressed Execute api { Event := m, BotID := b.BotID, Session := s } b c hc]
  by_cases h0 : c = []
  · subst h0
    rw [dispatched_empty]
    exact ⟨hflag, fun e he => absurd he (List.not_mem_nil _)⟩
  · rw [dispatched_command _ _ _ _ _ h0]
    refine ⟨hflag, fun e he => ?_⟩
    rcases List.mem_cons.1 he with he | he
    · injection he with he
      rw [he]
      exact hflag
    · have : Effect.Execute e ∈ executorCalls (discordMessage.Send api
          { Event := m, BotID := b.BotID, Session := s,
            IsAuthChannel := authAfterCheck { Event := m, BotID := b.BotID, Session := s } b,
            Request := c,
            Response := Execute (executorFor b c
              (authAfterCheck { Event := m, BotID := b.BotID, Session := s } b)) }) :=
        (mem_executorCalls _ _).2 ⟨he, rfl⟩
      rw [executorCalls_Send] at this
      exact absurd this (List.not_mem_nil _)

/-- C7 at a concrete input: `get pods` addressed to `BOT123` on its configured channel. -/
theorem C7_flag_iff_configured_channel_witness :
    ((bot123.StartHandler stubExecutor okPlatform ⟨1⟩
        ⟨str "<@!BOT123> get pods", str "C1"⟩).1.IsAuthChannel = true ↔
      str "C1" = bot123.ChannelID) ∧
    ∀ e, Effect.Execute e ∈ (bot123.StartHandler stubExecutor okPlatform ⟨1⟩
        ⟨str "<@!BOT123> get pods", str "C1"⟩).2 →
      (e.IsAuthChannel = true ↔ str "C1" = bot123.ChannelID) :=
  C7_flag_iff_configured_channel stubExecutor okPlatform bot123 ⟨1⟩
    ⟨str "<@!BOT123> get pods", str "C1"⟩ (Or.inl (by decide))

/-- C8: for a message that starts with a recognised mention followed by a non-empty command
`c`, on any channel, `HandleMessage` invokes the executor exactly once, stores its answer and
hands the message to `Send`; the platform calls go to `Event.ChannelID` and are chosen by the
length of the answer alone. -/
theorem C8_channel_does_not_gate_dispatch (Execute : Executor) (api : Platform)
    (dm : discordMessage) (b : DiscordBot) (c : GoString) (hc : c ≠ [])
    (h : dm.Event.Content = str "<@!" ++ dm.BotID ++ str "> " ++ c ∨
      dm.Event.Content = str "<@" ++ dm.BotID ++ str "> " ++ c) :
    executorCalls (dm.HandleMessage Execute api b).2 =
      [Effect.Execute (executorFor b c (authAfterCheck dm b))] ∧
    (dm.HandleMessage Execute api b).2 =
      Effect.Execute (executorFor b c (authAfterCheck dm b)) ::
        (dm.HandleMessage Execute api b).1.Send api ∧
    (dm.HandleMessage Execute api b).1 =
      { dm with IsAuthChannel := authAfterCheck dm b, Request := c,
                Response := Execute (executorFor b c (authAfterCheck dm b)) } ∧
    platformCalls (dm.HandleMessage Execute api b).2 =
      (if (Execute (executorFor b c (authAfterCheck dm b))).length ≥ 2000 then
        [Effect.ChannelMessageSendComplex dm.Session dm.Event.ChannelID
          { Content := c,
            Files := [{ Name := str "Response",
                        Reader := Execute (executorFor b c (authAfterCheck dm b)) }] }]
      else if (Execute (executorFor b c (authAfterCheck dm b))).length = 0 then []
      else [Effect.ChannelMessageSend dm.Session dm.Event.ChannelID
          (Execute (executorFor b c (authAfterCheck dm b)))]) := by
  have hH := HandleMessage_addressed Execute api dm b c h
  refine ⟨?_, ?_, ?_, ?_⟩
  · rw [hH, executorCalls_dispatched, if_neg hc]
  · rw [hH, dispatched_command _ _ _ _ _ hc]
  · rw [hH, dispatched_command _ _ _ _ _ hc]
  · rw [hH, platformCalls_dispatched, if_neg hc]
    rfl

/-- C8 at a concrete input: `get pods` addressed to `BOT123` on channel `C2`, which is not the
configured channel `C1`; the answer goes to `C2`. -/
theorem C8_channel_does_not_gate_dispatch_witness :
    platformCalls ((freshMessage (str "BOT123") (str "<@!BOT123> get pods")
        (str "C2")).HandleMessage stubExecutor okPlatform bot123).2 =
      [Effect.ChannelMessageSend ⟨1⟩ (str "C2") (str "pod-a  Running")] :=
  ((C8_channel_does_not_gate_dispatch stubExecutor okPlatform
    (freshMessage (str "BOT123") (str "<@!BOT123> get pods") (str "C2")) bot123
    (str "get pods") (by decide) (Or.inl (by decide))).2.2.2).trans (by decide)

/-- C9: whatever the event, the executor's answer and the platform's answers (success or
error), `Send` and `HandleMessage` issue at most one platform call, and the calls they issue do
not depend on whether the platform answers with an error: nothing is retried and a failed
upload is not followed by an inline send. Both are total functions that yield no error. -/
theorem C9_at_most_one_platform_call (Execute : Executor) (api : Platform)
    (dm : discordMessage) (b : DiscordBot) :
    (platformCalls (dm.Send api)).length ≤ 1 ∧
    (platformCalls (dm.HandleMessage Execute api b).2).length ≤ 1 ∧
    (∀ api2 : Platform, platformCalls (dm.Send api2) = platformCalls (dm.Send api)) ∧
    (∀ api2 : Platform, platformCalls (dm.HandleMessage Execute api2 b).2 =
      platformCalls (dm.HandleMessage Execute api b).2) := by
  refine ⟨?_, platformCalls_HandleMessage_length Execute api dm b, fun api2 => ?_, fun api2 =>
    (HandleMessage_platform_irrelevant Execute api api2 dm b).2.2⟩
  · rw [platformCalls_Send_routed]
    exact routed_length_le _ _ _ _
  · rw [platformCalls_Send_routed, platformCalls_Send_routed]

/-- C10: with a pure executor, calling `HandleMessage` a second time on the message that the
first call mutated returns the same message and repeats exactly the same effects; and whatever
the platform answers on either call, the two calls invoke the executor identically and issue
identical platform calls; the same holds for two deliveries of the same event through the
`Start` callback. -/
theorem C10_handling_twice_repeats_the_calls (Execute : Executor) (api api2 : Platform)
    (dm : discordMessage) (b : DiscordBot) :
    (dm.HandleMessage Execute api b).1.HandleMessage Execute api b =
      dm.HandleMessage Execute api b ∧
    platformCalls ((dm.HandleMessage Execute api b).1.HandleMessage Execute api2 b).2 =
      platformCalls (dm.HandleMessage Execute api b).2 ∧
    executorCalls ((dm.HandleMessage Execute api b).1.HandleMessage Execute api2 b).2 =
      executorCalls (dm.HandleMessage Execute api b).2 ∧
    platformCalls (dm.HandleMessage Execute api2 b).2 =
      platformCalls (dm.HandleMessage Execute api b).2 ∧
    (∀ (s : Session) (m : MessageCreate),
      platformCalls (b.StartHandler Execute api2 s m).2 =
        platformCalls (b.StartHandler Execute api s m).2) := by
  have hi := HandleMessage_platform_irrelevant Execute api api2
    (dm.HandleMessage Execute api b).1 b
  rw [HandleMessage_again] at hi
  exact ⟨HandleMessage_again Execute api dm b, hi.2.2, hi.2.1,
    (HandleMessage_platform_irrelevant Execute api api2 dm b).2.2,
    fun s m => (HandleMessage_platform_irrelevant Execute api api2
      { Event := m, BotID := b.BotID, Session := s } b).2.2⟩

/-! ## Characters and bytes -/

theorem utf8_length_replicate (n : Nat) (c : Char) :
    (utf8 (List.replicate n c)).length = n * c.utf8Size := by
  induction n with
  | zero => simp [utf8]
  | succ k ih =>
    have hk : utf8 (List.replicate (k + 1) c) =
        String.utf8EncodeChar c ++ utf8 (List.replicate k c) := by
      simp [utf8, List.replicate_succ]
    rw [hk, List.length_append, ih, String.length_utf8EncodeChar]
    ring

/-- A text never has more characters than its encoding has bytes. -/
theorem length_le_utf8_length (cs : List Char) : cs.length ≤ (utf8 cs).length := by
  induction cs with
  | nil => simp [utf8]
  | cons c r ih =>
    have hk : utf8 (c :: r) = String.utf8EncodeChar c ++ utf8 r := by
      simp [utf8]
    rw [hk, List.length_append, String.length_utf8EncodeChar, List.length_cons]
    have := Char.utf8Size_pos c
    omega

theorem accentedReply_length : accentedReply.Response.length = 2000 := by
  show (utf8 (List.replicate 1000 (Char.ofNat 233))).length = 2000
  rw [utf8_length_replicate]
  decide

/-- C11, where the claim fails: a response of one thousand two-byte characters is not empty
and has fewer than 2000 characters, yet `len` measures 2000 bytes, so `Send` uploads it as a
file and issues no inline message. -/
theorem C11_thousand_characters_are_uploaded :
    accentedReply.Response = utf8 accentedText ∧
    accentedText.length = 1000 ∧
    accentedReply.Response ≠ [] ∧
    platformCalls (accentedReply.Send okPlatform) =
      [Effect.ChannelMessageSendComplex accentedReply.Session accentedReply.Event.ChannelID
        { Content := accentedReply.Request,
          Files := [{ Name := str "Response", Reader := accentedReply.Response }] }] ∧
    platformCalls (accentedReply.Send okPlatform) ≠
      [Effect.ChannelMessageSend accentedReply.Session accentedReply.Event.ChannelID
        accentedReply.Response] := by
  have hlen := accentedReply_length
  have hup : platformCalls (accentedReply.Send okPlatform) =
      [Effect.ChannelMessageSendComplex accentedReply.Session accentedReply.Event.ChannelID
        { Content := accentedReply.Request,
          Files := [{ Name := str "Response", Reader := accentedReply.Response }] }] := by
    rw [platformCalls_Send, if_pos (by omega)]
  refine ⟨rfl, by unfold accentedText; rw [List.length_replicate], ?_, hup, ?_⟩
  · intro h
    rw [h] at hlen
    simp at hlen
  · rw [hup]
    intro h
    injection h with h1 _
    cases h1

/-- C11 as amended: the threshold is 2000 bytes, as `len` measures the response. A non-empty
response of fewer than 2000 bytes is sent inline and not uploaded; a response of 2000 or more
bytes is uploaded and not sent inline; hence every response text of 2000 or more characters
is uploaded. -/
theorem C11_threshold_counts_bytes (api : Platform) (dm : discordMessage) :
    (dm.Response ≠ [] → dm.Response.length < 2000 →
      platformCalls (dm.Send api) =
        [Effect.ChannelMessageSend dm.Session dm.Event.ChannelID dm.Response]) ∧
    (dm.Response.length ≥ 2000 →
      platformCalls (dm.Send api) =
        [Effect.ChannelMessageSendComplex dm.Session dm.Event.ChannelID
          { Content := dm.Request,
            Files := [{ Name := str "Response", Reader := dm.Response }] }]) ∧
    (∀ cs : List Char, dm.Response = utf8 cs → cs.length ≥ 2000 →
      platformCalls (dm.Send api) =
        [Effect.ChannelMessageSendComplex dm.Session dm.Event.ChannelID
          { Content := dm.Request,
            Files := [{ Name := str "Response", Reader := dm.Response }] }]) := by
  refine ⟨fun hne hlt => ?_, fun hge => ?_, fun cs hcs hge => ?_⟩
  · have h0 : dm.Response.length ≠ 0 := fun h => hne (List.length_eq_zero.1 h)
    rw [platformCalls_Send, if_neg (by omega), if_neg h0]
  · rw [platformCalls_Send, if_pos hge]
  · have hb : dm.Response.length ≥ 2000 := by
      rw [hcs]
      exact le_trans hge (length_le_utf8_length cs)
    rw [platformCalls_Send, if_pos hb]

/-- C11 as amended, at concrete inputs: the 14-byte response `pod-a  Running` is sent inline,
the 2500-byte response is uploaded. -/
theorem C11_threshold_counts_bytes_witness :
    platformCalls (shortReply.Send okPlatform) =
      [Effect.ChannelMessageSend shortReply.Session shortReply.Event.ChannelID
        shortReply.Response] ∧
    platformCalls (longReply.Send okPlatform) =
      [Effect.ChannelMessageSendComplex longReply.Session longReply.Event.ChannelID
        { Content := longReply.Request,
          Files := [{ Name := str "Response", Reader := longReply.Response }] }] :=
  ⟨(C11_threshold_counts_bytes okPlatform shortReply).1 (by decide) (by decide),
   (C11_threshold_counts_bytes okPlatform longReply).2.1 longReply_length⟩

/-! ## Order of the two tests -/

/-- Content in the nickname form does not start with the plain form. -/
theorem nick_not_plain (id c : GoString) :
    strings.HasPrefix (str "<@!" ++ id ++ str "> " ++ c) (str "<@" ++ id ++ str "> ") = false := by
  rw [HasPrefix_false_iff]
  intro hp
  exact mention_forms_exclusive id _ (List.prefix_append _ c) hp

theorem HandleMessagePlainFirst_nick (Execute : Executor) (api : Platform)
    (dm : discordMessage) (b : DiscordBot) (c : GoString)
    (h : dm.Event.Content = str "<@!" ++ dm.BotID ++ str "> " ++ c) :
    dm.HandleMessagePlainFirst Execute api b = dispatched Execute api dm b c := by
  have hN : strings.HasPrefix dm.Event.Content (str "<@!" ++ dm.BotID ++ str "> ") = true := by
    rw [h]; exact HasPrefix_append _ _
  have hP : strings.HasPrefix dm.Event.Content (str "<@" ++ dm.BotID ++ str "> ") = false := by
    rw [h]; exact nick_not_plain _ _
  have hT : strings.TrimPrefix dm.Event.Content (str "<@!" ++ dm.BotID ++ str "> ") = c := by
    rw [h]; exact TrimPrefix_append _ _
  unfold discordMessage.HandleMessagePlainFirst dispatched authAfterCheck executorFor
  simp only [List.append_assoc] at hN hP hT ⊢
  by_cases hch : b.ChannelID = dm.Event.ChannelID <;> by_cases hc : c = [] <;>
    simp [hch, hc, hN, hP, hT]

theorem HandleMessagePlainFirst_plain (Execute : Executor) (api : Platform)
    (dm : discordMessage) (b : DiscordBot) (c : GoString)
    (h : dm.Event.Content = str "<@" ++ dm.BotID ++ str "> " ++ c) :
    dm.HandleMessagePlainFirst Execute api b = dispatched Execute api dm b c := by
  have hP : strings.HasPrefix dm.Event.Content (str "<@" ++ dm.BotID ++ str "> ") = true := by
    rw [h]; exact HasPrefix_append _ _
  have hT : strings.TrimPrefix dm.Event.Content (str "<@" ++ dm.BotID ++ str "> ") = c := by
    rw [h]; exact TrimPrefix_append _ _
  unfold discordMessage.HandleMessagePlainFirst dispatched authAfterCheck executorFor
  simp only [List.append_assoc] at hP hT ⊢
  by_cases hch : b.ChannelID = dm.Event.ChannelID <;> by_cases hc : c = [] <;>
    simp [hch, hc, hP, hT]

theorem HandleMessagePlainFirst_unaddressed (Execute : Executor) (api : Platform)
    (dm : discordMessage) (b : DiscordBot)
    (hn : strings.HasPrefix dm.Event.Content (str "<@!" ++ dm.BotID ++ str "> ") = false)
    (hp : strings.HasPrefix dm.Event.Content (str "<@" ++ dm.BotID ++ str "> ") = false) :
    dm.HandleMessagePlainFirst Execute api b = (dm, []) := by
  unfold discordMessage.HandleMessagePlainFirst
  simp only [hn, hp]
  simp

/-- C12: for every bot id (the empty one and those beginning with `!` included) and every
content, the content does not start with both `<@!` + id + `> ` and `<@` + id + `> `; hence
`HandleMessage` with its two trimming tests exchanged returns the same message, and so the
same extracted request, and performs the same effects as `HandleMessage`. -/
theorem C12_mention_forms_are_exclusive (Execute : Executor) (api : Platform)
    (dm : discordMessage) (b : DiscordBot) (id s : GoString) :
    ¬ (strings.HasPrefix s (str "<@!" ++ id ++ str "> ") = true ∧
        strings.HasPrefix s (str "<@" ++ id ++ str "> ") = true) ∧
    ¬ ((str "<@!" ++ id ++ str "> ") <+: s ∧ (str "<@" ++ id ++ str "> ") <+: s) ∧
    dm.HandleMessagePlainFirst Execute api b = dm.HandleMessage Execute api b := by
  refine ⟨fun h => ?_, fun h => mention_forms_exclusive id s h.1 h.2, ?_⟩
  · exact mention_forms_exclusive id s ((HasPrefix_iff _ _).1 h.1) ((HasPrefix_iff _ _).1 h.2)
  · rcases content_cases dm.BotID dm.Event.Content with ⟨hn, hp⟩ | ⟨c, hc | hc⟩
    · rw [HandleMessage_unaddressed Execute api dm b hn hp,
        HandleMessagePlainFirst_unaddressed Execute api dm b hn hp]
    · rw [HandleMessage_nick Execute api dm b c hc,
        HandleMessagePlainFirst_nick Execute api dm b c hc]
    · rw [HandleMessage_plain Execute api dm b c hc,
        HandleMessagePlainFirst_plain Execute api dm b c hc]

/-! ## A flag that is set on entry -/

/-- C13: `HandleMessage` never clears `IsAuthChannel`: a flag that is true on entry is true
afterwards, whatever the content; and when the content is an addressed, non-empty command
`c`, the one executor built receives the flag true, whether or not `Event.ChannelID` is the
configured channel. -/
theorem C13_flag_is_never_cleared (Execute : Executor) (api : Platform)
    (dm : discordMessage) (b : DiscordBot) (hflag : dm.IsAuthChannel = true) :
    (dm.HandleMessage Execute api b).1.IsAuthChannel = true ∧
    ∀ c : GoString, c ≠ [] →
      (dm.Event.Content = str "<@!" ++ dm.BotID ++ str "> " ++ c ∨
        dm.Event.Content = str "<@" ++ dm.BotID ++ str "> " ++ c) →
      executorCalls (dm.HandleMessage Execute api b).2 = [Effect.Execute (executorFor b c true)] ∧
      (executorFor b c true).IsAuthChannel = true := by
  have ha : authAfterCheck dm b = true := by
    simp [authAfterCheck, hflag]
  constructor
  · rcases content_cases dm.BotID dm.Event.Content with ⟨hn, hp⟩ | ⟨c, hc⟩
    · rw [HandleMessage_unaddressed Execute api dm b hn hp]
      exact hflag
    · rw [HandleMessage_addressed Execute api dm b c hc]
      by_cases h0 : c = []
      · subst h0
        rw [dispatched_empty]
        exact ha
      · rw [dispatched_command _ _ _ _ _ h0]
        exact ha
  · intro c hc h
    rw [HandleMessage_addressed Execute api dm b c h, executorCalls_dispatched, if_neg hc, ha]
    exact ⟨rfl, rfl⟩

/-- C13 at a concrete input: `get pods` addressed to `BOT123` on channel `C2`, not the
configured channel `C1`, in a message whose flag is already true. -/
theorem C13_flag_is_never_cleared_witness :
    flaggedMessage.Event.ChannelID ≠ bot123.ChannelID ∧
    (flaggedMessage.HandleMessage stubExecutor okPlatform bot123).1.IsAuthChannel = true ∧
    executorCalls (flaggedMessage.HandleMessage stubExecutor okPlatform bot123).2 =
      [Effect.Execute (executorFor bot123 (str "get pods") true)] :=
  ⟨by decide,
   (C13_flag_is_never_cleared stubExecutor okPlatform flaggedMessage bot123 rfl).1,
   ((C13_flag_is_never_cleared stubExecutor okPlatform flaggedMessage bot123 rfl).2
      (str "get pods") (by decide) (Or.inl (by decide))).1⟩

end Botkube
